import Mathlib

/-!
# Verification of the heycat audio-capture and recording subsystem

Shallow embedding of the recording state machine, recording coordinator,
audio-capture callback state, residual flush, silence detector and capture
backend stop sequence of the heycat repository, with theorems settling the
frozen claims about them.

Sample values are embedded as rationals (`ℚ`); the code stores `f32` samples
but no claim depends on floating-point rounding of the sample values
themselves.  Durations computed by the code in `f64` as
`sample_count / sample_rate` are embedded as exact rational division.
Time instants (`std::time::Instant`) are embedded as natural numbers counting
nanoseconds; `Duration::as_millis` is division by `1000000`.
-/

namespace Heycat

/-! ## Audio data model (src/src-tauri/src/audio/mod.rs) -/

/-- Default sample rate for audio capture (44.1 kHz);
`DEFAULT_SAMPLE_RATE` in src/src-tauri/src/audio/mod.rs. -/
def DEFAULT_SAMPLE_RATE : ℕ := 44100

/-- Modelled from the spec: the fixed target output sample rate
(`TARGET_SAMPLE_RATE`, referenced by cpal_backend.rs but defined in a version
of audio/mod.rs missing from the snapshot).  The spec fixes it:
"Target output sample rate is fixed (16 kHz, mono, float-normalized)". -/
def TARGET_SAMPLE_RATE : ℕ := 16000

/-- State of the audio capture process (`CaptureState` in audio/mod.rs). -/
inductive CaptureState where
  | Idle
  | Capturing
  | Stopped
deriving DecidableEq, Repr

/-- Errors that can occur during audio capture
(`AudioCaptureError` in audio/mod.rs). -/
inductive AudioCaptureError where
  | NoDeviceAvailable
  | DeviceError (msg : String)
  | StreamError (msg : String)
deriving DecidableEq, Repr

/-- Modelled from the spec: `StopReason` is referenced by cpal_backend.rs and
turso/recording.rs but its defining version of audio/mod.rs is missing from
the snapshot.  The spec lists the variants: "StopReason: enum
\x7bBufferFull, LockError, StreamError, ResampleOverflow, SilenceAfterSpeech,
NoSpeechTimeout\x7d". -/
inductive StopReason where
  | BufferFull
  | LockError
  | StreamError
  | ResampleOverflow
  | SilenceAfterSpeech
  | NoSpeechTimeout
deriving DecidableEq, Repr

/-- Modelled from the spec: external WAV encoder error
(`WavEncodingError` of audio/wav.rs, missing from the snapshot; the spec
treats the encoder as an external collaborator
`encode(samples, sample_rate) -> Result<file_path, Error>`). -/
structure WavEncodingError where
  msg : String
deriving DecidableEq, Repr

/-- Modelled from the spec: `AudioBuffer::is_full`, used by
`CallbackState::process_samples` in cpal_backend.rs but absent from the
snapshot's audio/mod.rs.  The spec: "The shared AudioBuffer never exceeds a
fixed maximum sample count; once full, no further samples are accepted."
The buffer contents are the list, `max` its configured maximum. -/
def AudioBuffer.is_full (max : ℕ) (buf : List ℚ) : Bool :=
  max ≤ buf.length

/-- Modelled from the spec: `AudioBuffer::push_samples`, used by
`CallbackState::process_samples` in cpal_backend.rs but absent from the
snapshot's audio/mod.rs.  Appends as many of the given samples as capacity
allows and returns the new contents together with the number actually pushed
(the caller compares that count with the input length to detect that the
buffer became full during the push). -/
def AudioBuffer.push_samples (max : ℕ) (buf : List ℚ) (samples : List ℚ) :
    List ℚ × ℕ :=
  let room := max - buf.length
  (buf ++ samples.take room, min samples.length room)

/-! ## Recording state machine (src/src-tauri/src/recording/state.rs) -/

/-- Embedding of `RecordingState` in recording/state.rs. -/
inductive RecordingState where
  | Idle
  | Recording
  | Processing
deriving DecidableEq, Repr

/-- Embedding of `RecordingStateError` in recording/state.rs.  The Rust field names are
`from`/`to`; `from` is a Lean keyword, so the arguments are positional. -/
inductive RecordingStateError where
  | InvalidTransition (fromState toState : RecordingState)
  | NoAudioBuffer
deriving DecidableEq, Repr

/-- Embedding of `AudioData` in recording/state.rs (duration as exact rational). -/
structure AudioData where
  samples : List ℚ
  sample_rate : ℕ
  duration_secs : ℚ
deriving DecidableEq, Repr

/-- Embedding of `LastRecording` in recording/state.rs. -/
structure LastRecording where
  samples : List ℚ
  sample_rate : ℕ
deriving DecidableEq, Repr

/-- Embedding of `RecordingManager` in recording/state.rs.  The shared
`Option<AudioBuffer>` handle is embedded by its contents. -/
structure RecordingManager where
  state : RecordingState
  audio_buffer : Option (List ℚ)
  last_recording : Option LastRecording
deriving DecidableEq, Repr

/-- Embedding of `RecordingManager::new`. -/
def RecordingManager.new : RecordingManager :=
  { state := .Idle, audio_buffer := none, last_recording := none }

/-- The `matches!` test at the head of `RecordingManager::transition_to`. -/
def RecordingManager.validTransition : RecordingState → RecordingState → Bool
  | .Idle, .Recording => true
  | .Recording, .Processing => true
  | .Processing, .Idle => true
  | _, _ => false

/-- Embedding of `RecordingManager::transition_to` (recording/state.rs, lines 100-136):
validates the transition, performs the buffer lifecycle side effects, then
sets the state.  Entering Recording allocates a fresh empty buffer; leaving
Processing for Idle snapshots the samples into `last_recording` with
`DEFAULT_SAMPLE_RATE` and releases the live buffer. -/
def RecordingManager.transition_to (m : RecordingManager)
    (new_state : RecordingState) :
    RecordingManager × Except RecordingStateError Unit :=
  if ¬ RecordingManager.validTransition m.state new_state then
    (m, .error (.InvalidTransition m.state new_state))
  else
    let m' :=
      match m.state, new_state with
      | .Idle, .Recording => { m with audio_buffer := some [] }
      | .Processing, .Idle =>
        match m.audio_buffer with
        | some samples =>
          { m with
              last_recording :=
                some { samples := samples, sample_rate := DEFAULT_SAMPLE_RATE }
              audio_buffer := none }
        | none => { m with audio_buffer := none }
      | _, _ => m
    ({ m' with state := new_state }, .ok ())

/-- Embedding of `RecordingManager::get_audio_buffer`. -/
def RecordingManager.get_audio_buffer (m : RecordingManager) :
    Except RecordingStateError (List ℚ) :=
  match m.audio_buffer with
  | some buf => .ok buf
  | none => .error .NoAudioBuffer

/-- Embedding of `RecordingManager::get_last_recording_buffer` (recording/state.rs,
lines 149-162): duration is `samples.len() / sample_rate` (exact rational
in the embedding). -/
def RecordingManager.get_last_recording_buffer (m : RecordingManager) :
    Except RecordingStateError AudioData :=
  match m.last_recording with
  | some recording =>
    .ok { samples := recording.samples
          sample_rate := recording.sample_rate
          duration_secs :=
            (recording.samples.length : ℚ) / (recording.sample_rate : ℚ) }
  | none => .error .NoAudioBuffer

/-- Embedding of `RecordingManager::clear_last_recording`. -/
def RecordingManager.clear_last_recording (m : RecordingManager) :
    RecordingManager :=
  { m with last_recording := none }

/-- Embedding of `RecordingManager::reset_to_idle` (recording/state.rs, lines 175-178). -/
def RecordingManager.reset_to_idle (m : RecordingManager) : RecordingManager :=
  { m with state := .Idle, audio_buffer := none }

/-! ## Recording coordinator (src/src-tauri/src/recording/coordinator.rs) -/

/-- Embedding of `CoordinatorError` in recording/coordinator.rs. -/
inductive CoordinatorError where
  | AlreadyRecording
  | NotRecording
  | CaptureError (e : AudioCaptureError)
  | StateError (e : RecordingStateError)
  | EncodingError (e : WavEncodingError)
deriving DecidableEq, Repr

/-- Embedding of `RecordingMetadata` in recording/coordinator.rs (lines 39-47): exactly
three fields, `duration_secs`, `file_path`, `sample_count`. -/
structure RecordingMetadata where
  duration_secs : ℚ
  file_path : String
  sample_count : ℕ
deriving DecidableEq, Repr

/-- The field names of `RecordingMetadata` as serialized by its
`derive(serde::Serialize)` in recording/coordinator.rs — the shape of the
result a consumer of a successful `stop_recording` observes. -/
def RecordingMetadata.serializeFields : List String :=
  ["duration_secs", "file_path", "sample_count"]

/-- Embedding of `RecordingCoordinator` in recording/coordinator.rs.  The capture backend
and file writer are external effects; their outcomes are passed to the
operations as explicit arguments. -/
structure RecordingCoordinator where
  state_manager : RecordingManager
  sample_rate : ℕ
deriving DecidableEq, Repr

/-- Embedding of `RecordingCoordinator::new` (with `DEFAULT_SAMPLE_RATE`). -/
def RecordingCoordinator.new : RecordingCoordinator :=
  { state_manager := RecordingManager.new, sample_rate := DEFAULT_SAMPLE_RATE }

/-- Embedding of `RecordingCoordinator::start_recording` (coordinator.rs, lines 89-113).
`captureStart` is the outcome of the backend's `start` call for the fresh
buffer. -/
def RecordingCoordinator.start_recording (c : RecordingCoordinator)
    (captureStart : Except AudioCaptureError Unit) :
    RecordingCoordinator × Except CoordinatorError Unit :=
  if c.state_manager.state ≠ .Idle then
    (c, .error .AlreadyRecording)
  else
    match c.state_manager.transition_to .Recording with
    | (m, .error e) => ({ c with state_manager := m }, .error (.StateError e))
    | (m, .ok ()) =>
      match m.get_audio_buffer with
      | .error e => ({ c with state_manager := m }, .error (.StateError e))
      | .ok _buffer =>
        match captureStart with
        | .error e =>
          ({ c with state_manager := m.reset_to_idle },
           .error (.CaptureError e))
        | .ok () => ({ c with state_manager := m }, .ok ())

/-- Embedding of `RecordingCoordinator::stop_recording` (coordinator.rs, lines 118-160).
`captureStop` is the outcome of the backend's `stop`; `encode_wav` is the
external encoder `encode(samples, sample_rate) -> Result<file_path, Error>`. -/
def RecordingCoordinator.stop_recording (c : RecordingCoordinator)
    (captureStop : Except AudioCaptureError Unit)
    (encode_wav : List ℚ → ℕ → Except WavEncodingError String) :
    RecordingCoordinator × Except CoordinatorError RecordingMetadata :=
  if c.state_manager.state ≠ .Recording then
    (c, .error .NotRecording)
  else
    match captureStop with
    | .error e => (c, .error (.CaptureError e))
    | .ok () =>
      match c.state_manager.transition_to .Processing with
      | (m, .error e) => ({ c with state_manager := m }, .error (.StateError e))
      | (m, .ok ()) =>
        match m.get_audio_buffer with
        | .error e => ({ c with state_manager := m }, .error (.StateError e))
        | .ok samples =>
          let sample_count := samples.length
          match encode_wav samples c.sample_rate with
          | .error e =>
            ({ c with state_manager := m }, .error (.EncodingError e))
          | .ok file_path =>
            let duration_secs : ℚ :=
              (sample_count : ℚ) / (c.sample_rate : ℚ)
            match m.transition_to .Idle with
            | (m2, .error e) =>
              ({ c with state_manager := m2 }, .error (.StateError e))
            | (m2, .ok ()) =>
              ({ c with state_manager := m2 },
               .ok { duration_secs := duration_secs
                     file_path := file_path
                     sample_count := sample_count })

/-! ## Capture callback state (src/src-tauri/src/audio/cpal_backend.rs)

The resampler (`rubato::FftFixedIn<f32>`) is an external collaborator: it is
embedded abstractly as a state type `R` with a step function
`process : R → List ℚ → R × List (List ℚ)` returning the per-channel output
(the code reads channel `output[0]` when the output is non-empty).
Locks are embedded as always succeeding: the claims are about the
single-threaded callback sequence, and the code's poisoned-lock branches
only drop data or fall back to an equivalent allocation path. -/

/-- Configuration of a capture session's callback state.  `chunk_size` is
`RESAMPLE_CHUNK_SIZE` (audio_constants.rs, missing from the snapshot; the
spec calls it a tuning parameter, so it is kept as a parameter here), and
`max_resample_buffer_samples` / `max_buffer_samples` are the overflow
ceiling of the accumulation buffer and the destination buffer's fixed
maximum (both modelled from the spec: their defining audio/mod.rs version
is missing from the snapshot). -/
structure CallbackCfg (R : Type) where
  process : R → List ℚ → R × List (List ℚ)
  chunk_size : ℕ
  max_resample_buffer_samples : ℕ
  max_buffer_samples : ℕ
  device_sample_rate : ℕ

/-- Embedding of `CallbackState` in cpal_backend.rs: the per-session state read and
written by `process_samples` and `flush_residuals`.  The stop-signal
channel is embedded as the ordered list `sent` of stop reasons sent on it. -/
structure CallbackState (R : Type) where
  resampler : Option R
  resample_buffer : List ℚ
  buffer : List ℚ
  signaled : Bool
  sent : List StopReason
  input_sample_count : ℕ
  output_sample_count : ℕ

/-- A fresh session's callback state as built by `CpalBackend::start`. -/
def CallbackState.init {R : Type} (resampler : Option R) : CallbackState R :=
  { resampler := resampler
    resample_buffer := []
    buffer := []
    signaled := false
    sent := []
    input_sample_count := 0
    output_sample_count := 0 }

/-- The `if !self.signaled.swap(true, SeqCst) \x7b sender.send(reason) \x7d`
idiom of cpal_backend.rs: send the reason only when this session has not
signaled yet, and mark it signaled. -/
def signal_once {R : Type} (s : CallbackState R) (reason : StopReason) :
    CallbackState R :=
  if s.signaled then s
  else { s with signaled := true, sent := s.sent ++ [reason] }

/-- The `while resample_buf.len() >= self.chunk_size` loop of
`process_samples`: drain whole chunks through the resampler, collecting
channel 0 of each non-empty output.  Structural recursion on a fuel that
starts at the buffer length; each iteration removes `chunk_size ≥ 1`
samples, so the fuel never runs out on the loop's own terms. -/
def drain_chunks_go {R : Type} (process : R → List ℚ → R × List (List ℚ))
    (chunk_size : ℕ) :
    ℕ → R → List ℚ → List ℚ → R × List ℚ × List ℚ
  | 0, r, buf, resampled => (r, buf, resampled)
  | fuel + 1, r, buf, resampled =>
    if 0 < chunk_size ∧ chunk_size ≤ buf.length then
      let step := process r (buf.take chunk_size)
      let resampled' :=
        match step.2 with
        | [] => resampled
        | c :: _ => resampled ++ c
      drain_chunks_go process chunk_size fuel step.1 (buf.drop chunk_size)
        resampled'
    else (r, buf, resampled)

/-- Entry point of the drain loop with sufficient fuel. -/
def drain_chunks {R : Type} (process : R → List ℚ → R × List (List ℚ))
    (chunk_size : ℕ) (r : R) (buf : List ℚ) : R × List ℚ × List ℚ :=
  drain_chunks_go process chunk_size buf.length r buf []

/-- The push phase of `process_samples` (cpal_backend.rs, lines 165-189):
if the destination buffer is already full, signal `BufferFull` once and
accept nothing; otherwise count the output samples, push as many as fit,
and signal `BufferFull` once if the buffer became full during the push. -/
def push_phase {R : Type} (cfg : CallbackCfg R) (s : CallbackState R)
    (samples_to_add : List ℚ) : CallbackState R :=
  if AudioBuffer.is_full cfg.max_buffer_samples s.buffer then
    signal_once s .BufferFull
  else
    let s1 := { s with
      output_sample_count := s.output_sample_count + samples_to_add.length }
    let pushRes :=
      AudioBuffer.push_samples cfg.max_buffer_samples s1.buffer samples_to_add
    let s2 := { s1 with buffer := pushRes.1 }
    if pushRes.2 < samples_to_add.length then signal_once s2 .BufferFull
    else s2

/-- Embedding of `CallbackState::process_samples` (cpal_backend.rs, lines 110-189):
count the input; with a resampler, reject the call with a single
`ResampleOverflow` signal if appending would exceed the accumulation
ceiling, otherwise accumulate and drain whole chunks; without a resampler,
pass the samples through; finally run the push phase. -/
def CallbackState.process_samples {R : Type} (cfg : CallbackCfg R)
    (s : CallbackState R) (f32_samples : List ℚ) : CallbackState R :=
  let s0 := { s with
    input_sample_count := s.input_sample_count + f32_samples.length }
  match s0.resampler with
  | some r =>
    if cfg.max_resample_buffer_samples <
        s0.resample_buffer.length + f32_samples.length then
      signal_once s0 .ResampleOverflow
    else
      let buf := s0.resample_buffer ++ f32_samples
      let d := drain_chunks cfg.process cfg.chunk_size r buf
      push_phase cfg
        { s0 with resampler := some d.1, resample_buffer := d.2.1 } d.2.2
  | none => push_phase cfg s0 f32_samples

/-- A whole session's sequence of callback invocations. -/
def run_callbacks {R : Type} (cfg : CallbackCfg R) (s : CallbackState R)
    (inputs : List (List ℚ)) : CallbackState R :=
  inputs.foldl (CallbackState.process_samples cfg) s

/-- Embedding of `CallbackState::flush_residuals` (cpal_backend.rs, lines 195-242):
with a resampler and a non-empty residual smaller than one chunk, zero-pad
the residual to `chunk_size`, run one final `process`, truncate the output
to `min(output_len, ceil(residual_len * target_rate / source_rate))`
(the code computes the ceiling in `f64`; for the representable session
ranges that equals the exact ceiling embedded here), push the truncated
output, and clear the accumulation buffer. -/
def CallbackState.flush_residuals {R : Type} (cfg : CallbackCfg R)
    (s : CallbackState R) : CallbackState R :=
  match s.resampler with
  | none => s
  | some r =>
    let residual_count := s.resample_buffer.length
    if residual_count = 0 ∨ cfg.chunk_size ≤ residual_count then s
    else
      let padded :=
        s.resample_buffer ++
          List.replicate (cfg.chunk_size - residual_count) (0 : ℚ)
      let step := cfg.process r padded
      let s1 := { s with resampler := some step.1 }
      let s2 :=
        match step.2 with
        | [] => s1
        | c :: _ =>
          let expected_output :=
            (residual_count * TARGET_SAMPLE_RATE + cfg.device_sample_rate - 1)
              / cfg.device_sample_rate
          let actual_output := min c.length expected_output
          let s' := { s1 with
            output_sample_count := s1.output_sample_count + actual_output }
          let pushRes :=
            AudioBuffer.push_samples cfg.max_buffer_samples s'.buffer
              (c.take actual_output)
          { s' with buffer := pushRes.1 }
      { s2 with resample_buffer := [] }

/-! ## Capture backend stop sequence (cpal_backend.rs, lines 442-465)

`CpalBackend::stop` is embedded as a trace of the externally visible steps
it performs, in program order: dropping the hardware stream (which halts
the audio callback), flushing residuals, and logging diagnostics.  The
backend is abstracted to the presence of its `stream` and `callback_state`
options. -/

/-- The observable steps of `CpalBackend::stop`. -/
inductive StopEvent where
  | DropStream
  | FlushResiduals
  | LogSampleDiagnostics
deriving DecidableEq, Repr

/-- Embedding of `CpalBackend` (cpal_backend.rs, lines 19-24), abstracted to which
resources it currently holds. -/
structure CpalBackend where
  stream : Bool
  callback_state : Bool
  state : CaptureState
deriving DecidableEq, Repr

/-- Embedding of `CpalBackend::stop` (cpal_backend.rs, lines 442-465) as the ordered
trace of its steps together with the resulting backend: first
`self.stream.take()` is dropped (if present), then — only then — the
callback state (if present) flushes residuals and logs diagnostics, and
the backend ends cleared and `Stopped`. -/
def CpalBackend.stop (b : CpalBackend) :
    CpalBackend × List StopEvent × Except AudioCaptureError Unit :=
  let dropEvents := if b.stream then [StopEvent.DropStream] else []
  let flushEvents :=
    if b.callback_state then
      [StopEvent.FlushResiduals, StopEvent.LogSampleDiagnostics]
    else []
  ({ stream := false, callback_state := false, state := .Stopped },
   dropEvents ++ flushEvents, .ok ())

/-! ## Silence detector (src/src-tauri/src/listening/silence.rs)

The VAD (`voice_activity_detector::VoiceActivityDetector`) is an external
collaborator, embedded abstractly as a state type `V` with
`predict : V → List ℚ → V × ℚ` returning the speech probability of a
512-sample chunk.  Instants are nanosecond counts; within one
`process_samples` call the code takes `Instant::now()` (and the
sub-nanosecond later now of `elapsed()`), collapsed here to one `now`. -/

/-- Embedding of `std::time::Duration::as_millis` on a nanosecond count. -/
def Duration.as_millis (ns : ℕ) : ℕ := ns / 1000000

/-- Embedding of `SilenceStopReason` in listening/silence.rs. -/
inductive SilenceStopReason where
  | SilenceAfterSpeech
  | NoSpeechTimeout
deriving DecidableEq, Repr

/-- Embedding of `SilenceConfig` in listening/silence.rs (threshold as rational). -/
structure SilenceConfig where
  vad_speech_threshold : ℚ
  silence_duration_ms : ℕ
  no_speech_timeout_ms : ℕ
  pause_tolerance_ms : ℕ
  sample_rate : ℕ
deriving DecidableEq, Repr

/-- Embedding of `SilenceConfig::default` in listening/silence.rs. -/
def SilenceConfig.default : SilenceConfig :=
  { vad_speech_threshold := 1/2
    silence_duration_ms := 2000
    no_speech_timeout_ms := 5000
    pause_tolerance_ms := 1000
    sample_rate := 16000 }

/-- Embedding of `SilenceDetectionResult` in listening/silence.rs. -/
inductive SilenceDetectionResult where
  | Continue
  | Stop (reason : SilenceStopReason)
deriving DecidableEq, Repr

/-- Embedding of `SilenceDetector` in listening/silence.rs.  Instants are nanosecond
counts; the VAD state is `Option V` (`None` when construction failed). -/
structure SilenceDetector (V : Type) where
  config : SilenceConfig
  has_detected_speech : Bool
  silence_start : Option ℕ
  recording_start : ℕ
  vad : Option V

/-- The chunk loop of `SilenceDetector::check_vad` (silence.rs, lines
149-161): feed each full 512-sample chunk to the VAD, returning true as
soon as a chunk's probability reaches the threshold; incomplete trailing
chunks are skipped.  Fuel-based structural recursion (each step drops 512
samples, so `samples.length` fuel suffices). -/
def check_vad_go {V : Type} (predict : V → List ℚ → V × ℚ) (threshold : ℚ) :
    ℕ → V → List ℚ → V × Bool
  | 0, v, _ => (v, false)
  | fuel + 1, v, samples =>
    if 512 ≤ samples.length then
      let step := predict v (samples.take 512)
      if threshold ≤ step.2 then (step.1, true)
      else check_vad_go predict threshold fuel step.1 (samples.drop 512)
    else (v, false)

/-- Embedding of `SilenceDetector::check_vad` (silence.rs, lines 140-165): without a VAD,
assume no speech. -/
def SilenceDetector.check_vad {V : Type} (predict : V → List ℚ → V × ℚ)
    (s : SilenceDetector V) (samples : List ℚ) : Option V × Bool :=
  match s.vad with
  | none => (none, false)
  | some v =>
    let res :=
      check_vad_go predict s.config.vad_speech_threshold samples.length v
        samples
    (some res.1, res.2)

/-- Embedding of `SilenceDetector::process_samples` (silence.rs, lines 171-231): run the
VAD; on silence, start or continue the silence span and test the
no-speech-timeout (if speech was never detected) or the silence-duration
threshold (if it was); on speech, record that speech was detected and
clear the silence span. -/
def SilenceDetector.process_samples {V : Type}
    (predict : V → List ℚ → V × ℚ) (s : SilenceDetector V) (now : ℕ)
    (samples : List ℚ) : SilenceDetector V × SilenceDetectionResult :=
  let vadRes := s.check_vad predict samples
  let s0 := { s with vad := vadRes.1 }
  if vadRes.2 = false then
    let ss := s0.silence_start.getD now
    let s1 := { s0 with silence_start := some ss }
    let silence_duration := now - ss
    if s1.has_detected_speech = false then
      let total_elapsed := now - s1.recording_start
      if s1.config.no_speech_timeout_ms ≤ Duration.as_millis total_elapsed then
        (s1, .Stop .NoSpeechTimeout)
      else (s1, .Continue)
    else
      if s1.config.silence_duration_ms ≤ Duration.as_millis silence_duration
      then (s1, .Stop .SilenceAfterSpeech)
      else (s1, .Continue)
  else
    ({ s0 with has_detected_speech := true, silence_start := none },
     .Continue)

/-! ## Concrete instances used by witnesses and counterexamples -/

/-- A backend configuration with the resampler unused (device at target
rate): chunk size 1, destination capacity 1 sample. -/
def passthroughCfg : CallbackCfg Unit :=
  { process := fun r _ => (r, [])
    chunk_size := 1
    max_resample_buffer_samples := 0
    max_buffer_samples := 1
    device_sample_rate := 48000 }

/-- A resampling configuration whose abstract resampler echoes its input
chunk, with accumulation ceiling 2 and destination capacity 1. -/
def echoCfg : CallbackCfg Unit :=
  { process := fun r c => (r, [c])
    chunk_size := 1
    max_resample_buffer_samples := 2
    max_buffer_samples := 1
    device_sample_rate := 48000 }

/-- A flush scenario: echoing resampler, chunk size 3, device at 48 kHz. -/
def flushCfg : CallbackCfg Unit :=
  { process := fun r c => (r, [c])
    chunk_size := 3
    max_resample_buffer_samples := 100
    max_buffer_samples := 10
    device_sample_rate := 48000 }

/-- A callback state holding a one-sample residual. -/
def flushState : CallbackState Unit :=
  { resampler := some ()
    resample_buffer := [1]
    buffer := []
    signaled := false
    sent := []
    input_sample_count := 1
    output_sample_count := 0 }

/-- A VAD that classifies everything as silence. -/
def silentPredict : Unit → List ℚ → Unit × ℚ := fun v _ => (v, 0)

/-- A detector session that has never seen speech, with a 50 ms
no-speech timeout, started at instant 0. -/
def timeoutDetector : SilenceDetector Unit :=
  { config := { SilenceConfig.default with no_speech_timeout_ms := 50 }
    has_detected_speech := false
    silence_start := none
    recording_start := 0
    vad := some () }

/-- A detector session that has already seen speech, with a 0 ms
silence-duration threshold. -/
def spokeDetector : SilenceDetector Unit :=
  { config := { SilenceConfig.default with silence_duration_ms := 0 }
    has_detected_speech := true
    silence_start := none
    recording_start := 0
    vad := some () }

/-- An encoder that always succeeds with a fixed path. -/
def encOk : List ℚ → ℕ → Except WavEncodingError String :=
  fun _ _ => .ok "out.wav"

/-- An encoder that always fails. -/
def encFail : List ℚ → ℕ → Except WavEncodingError String :=
  fun _ _ => .error { msg := "disk full" }

/-- A coordinator mid-recording with four captured samples at rate 4. -/
def recCoord : RecordingCoordinator :=
  { state_manager :=
      { state := .Recording, audio_buffer := some [0, 0, 0, 0],
        last_recording := none }
    sample_rate := 4 }

/-! ## Theorems: recording state machine and coordinator -/

/-- C3: `transition_to` succeeds exactly for the pairs Idle→Recording,
Recording→Processing and Processing→Idle; every other requested transition
returns `InvalidTransition` and returns the manager unchanged (same state,
same audio buffer, same retained recording). -/
theorem transition_to_valid_cycle_only (m : RecordingManager)
    (t : RecordingState) :
    ((m.transition_to t).2 = .ok () ↔
      ((m.state = .Idle ∧ t = .Recording) ∨
       (m.state = .Recording ∧ t = .Processing) ∨
       (m.state = .Processing ∧ t = .Idle))) ∧
    (¬ ((m.state = .Idle ∧ t = .Recording) ∨
        (m.state = .Recording ∧ t = .Processing) ∨
        (m.state = .Processing ∧ t = .Idle)) →
      m.transition_to t = (m, .error (.InvalidTransition m.state t))) := by
  obtain ⟨st, ab, lr⟩ := m
  cases st <;> cases t <;>
    simp [RecordingManager.transition_to, RecordingManager.validTransition]

/-- Witness for C3: from Idle, requesting Processing is rejected and leaves
the manager untouched. -/
theorem transition_to_valid_cycle_only_witness :
    RecordingManager.new.transition_to .Processing =
      (RecordingManager.new,
       .error (.InvalidTransition .Idle .Processing)) :=
  (transition_to_valid_cycle_only RecordingManager.new .Processing).2
    (by decide)

/-- C4: from Idle, if the capture backend's start fails, `start_recording`
returns that capture error, the state is back at Idle, and the freshly
allocated audio buffer has been released. -/
theorem start_recording_capture_failure_rolls_back
    (c : RecordingCoordinator) (e : AudioCaptureError)
    (hidle : c.state_manager.state = .Idle) :
    (c.start_recording (.error e)).2 = .error (.CaptureError e) ∧
    (c.start_recording (.error e)).1.state_manager.state = .Idle ∧
    (c.start_recording (.error e)).1.state_manager.audio_buffer = none := by
  obtain ⟨⟨st, ab, lr⟩, sr⟩ := c
  simp only at hidle
  subst hidle
  simp [RecordingCoordinator.start_recording, RecordingManager.transition_to,
    RecordingManager.validTransition, RecordingManager.get_audio_buffer,
    RecordingManager.reset_to_idle]

/-- Witness for C4 at a concrete idle coordinator and device error. -/
theorem start_recording_capture_failure_rolls_back_witness :
    (RecordingCoordinator.new.start_recording
        (.error .NoDeviceAvailable)).2 =
      .error (.CaptureError .NoDeviceAvailable) ∧
    (RecordingCoordinator.new.start_recording
        (.error .NoDeviceAvailable)).1.state_manager.state = .Idle ∧
    (RecordingCoordinator.new.start_recording
        (.error .NoDeviceAvailable)).1.state_manager.audio_buffer = none :=
  start_recording_capture_failure_rolls_back RecordingCoordinator.new
    .NoDeviceAvailable (by decide)

/-- C5: from Recording, when capture stop succeeded but WAV encoding fails,
`stop_recording` returns the encoding error, the state remains Processing,
and the audio buffer still holds the captured samples (so the stop can be
retried). -/
theorem stop_recording_encoding_failure_stays_processing
    (c : RecordingCoordinator) (samples : List ℚ)
    (enc : List ℚ → ℕ → Except WavEncodingError String)
    (e : WavEncodingError)
    (hrec : c.state_manager.state = .Recording)
    (hbuf : c.state_manager.audio_buffer = some samples)
    (henc : enc samples c.sample_rate = .error e) :
    (c.stop_recording (.ok ()) enc).2 = .error (.EncodingError e) ∧
    (c.stop_recording (.ok ()) enc).1.state_manager.state = .Processing ∧
    (c.stop_recording (.ok ()) enc).1.state_manager.audio_buffer
      = some samples := by
  obtain ⟨⟨st, ab, lr⟩, sr⟩ := c
  simp only at hrec hbuf henc
  subst hrec
  subst hbuf
  simp [RecordingCoordinator.stop_recording, RecordingManager.transition_to,
    RecordingManager.validTransition, RecordingManager.get_audio_buffer, henc]

/-- Witness for C5 at a concrete recording coordinator and failing
encoder. -/
theorem stop_recording_encoding_failure_stays_processing_witness :
    (recCoord.stop_recording (.ok ()) encFail).2 =
      .error (.EncodingError { msg := "disk full" }) ∧
    (recCoord.stop_recording (.ok ())
        encFail).1.state_manager.state = .Processing ∧
    (recCoord.stop_recording (.ok ())
        encFail).1.state_manager.audio_buffer = some [0, 0, 0, 0] :=
  stop_recording_encoding_failure_stays_processing recCoord [0, 0, 0, 0]
    encFail { msg := "disk full" } (by decide) (by decide) rfl

/-- C6 (amended): from Recording, a successful `stop_recording` transitions
the state to Idle and returns a result containing the duration, the encoded
file path and the sample count — but no stop reason, which
`RecordingMetadata` does not carry — with the duration equal to
`sample_count / sample_rate`. -/
theorem stop_recording_success_metadata
    (c : RecordingCoordinator) (samples : List ℚ)
    (enc : List ℚ → ℕ → Except WavEncodingError String) (path : String)
    (hrec : c.state_manager.state = .Recording)
    (hbuf : c.state_manager.audio_buffer = some samples)
    (henc : enc samples c.sample_rate = .ok path) :
    (c.stop_recording (.ok ()) enc).2 =
      .ok { duration_secs := (samples.length : ℚ) / (c.sample_rate : ℚ)
            file_path := path
            sample_count := samples.length } ∧
    (c.stop_recording (.ok ()) enc).1.state_manager.state = .Idle := by
  obtain ⟨⟨st, ab, lr⟩, sr⟩ := c
  simp only at hrec hbuf henc
  subst hrec
  subst hbuf
  simp [RecordingCoordinator.stop_recording, RecordingManager.transition_to,
    RecordingManager.validTransition, RecordingManager.get_audio_buffer, henc]

/-- Witness for C6's amended theorem: four samples at rate 4 give a one
second recording and the state returns to Idle. -/
theorem stop_recording_success_metadata_witness :
    (recCoord.stop_recording (.ok ()) encOk).2 =
      .ok { duration_secs := ((4 : ℚ) / (4 : ℚ))
            file_path := "out.wav"
            sample_count := 4 } ∧
    (recCoord.stop_recording (.ok ()) encOk).1.state_manager.state = .Idle :=
  stop_recording_success_metadata recCoord [0, 0, 0, 0] encOk "out.wav"
    (by decide) (by decide) rfl

/-- Counterexample for C6 as stated: a concrete successful stop returns a
`RecordingMetadata` whose serialized shape is exactly
`duration_secs`/`file_path`/`sample_count`; no `stop_reason` component
exists, so the result does not contain the stop reason. -/
theorem stop_recording_result_lacks_stop_reason :
    (recCoord.stop_recording (.ok ()) encOk).2 =
      .ok { duration_secs := 1, file_path := "out.wav", sample_count := 4 } ∧
    "stop_reason" ∉ RecordingMetadata.serializeFields := by
  refine ⟨?_, by decide⟩
  norm_num [RecordingCoordinator.stop_recording, recCoord, encOk,
    RecordingManager.transition_to, RecordingManager.validTransition,
    RecordingManager.get_audio_buffer]

/-- C10: every Processing→Idle transition stores the retained snapshot with
`sample_rate = DEFAULT_SAMPLE_RATE = 44100` (the manager has no other rate
to use), so `get_last_recording_buffer` reports
`duration_secs = samples.len() / 44100`. -/
theorem last_recording_sample_rate_hardcoded
    (m : RecordingManager) (samples : List ℚ)
    (hp : m.state = .Processing)
    (hb : m.audio_buffer = some samples) :
    (m.transition_to .Idle).1.last_recording =
      some { samples := samples, sample_rate := DEFAULT_SAMPLE_RATE } ∧
    DEFAULT_SAMPLE_RATE = 44100 ∧
    (m.transition_to .Idle).1.get_last_recording_buffer =
      .ok { samples := samples
            sample_rate := 44100
            duration_secs := (samples.length : ℚ) / (44100 : ℚ) } := by
  obtain ⟨st, ab, lr⟩ := m
  simp only at hp hb
  subst hp
  subst hb
  simp [RecordingManager.transition_to, RecordingManager.validTransition,
    RecordingManager.get_last_recording_buffer, DEFAULT_SAMPLE_RATE]

/-- Witness for C10: one retained sample is reported at 44100 Hz with
duration 1/44100 s. -/
theorem last_recording_sample_rate_hardcoded_witness :
    (RecordingManager.transition_to
        { state := .Processing, audio_buffer := some [1],
          last_recording := none } .Idle).1.last_recording =
      some { samples := [1], sample_rate := DEFAULT_SAMPLE_RATE } ∧
    DEFAULT_SAMPLE_RATE = 44100 ∧
    (RecordingManager.transition_to
        { state := .Processing, audio_buffer := some [1],
          last_recording := none } .Idle).1.get_last_recording_buffer =
      .ok { samples := [1]
            sample_rate := 44100
            duration_secs := ((1 : ℕ) : ℚ) / (44100 : ℚ) } := by
  have h := last_recording_sample_rate_hardcoded
    { state := .Processing, audio_buffer := some [1],
      last_recording := none } [1] (by decide) (by decide)
  simpa using h

/-! ## Theorems: capture backend stop ordering -/

/-- C2: in every execution of `CpalBackend::stop`, every stream-drop step
occurs strictly before every residual-flush and diagnostics step in the
trace — the callback is halted before the flush reads the accumulation
buffer. -/
theorem stop_drops_stream_before_flush (b : CpalBackend)
    (i j : Fin b.stop.2.1.length)
    (hi : b.stop.2.1.get i = .DropStream)
    (hj : b.stop.2.1.get j ≠ .DropStream) :
    (i : ℕ) < (j : ℕ) := by
  obtain ⟨s, cs, st⟩ := b
  cases s <;> cases cs <;> cases st <;> revert i j hi hj <;> decide

/-- Witness for C2: with both a live stream and callback state present, the
drop at position 0 precedes the flush at position 1. -/
theorem stop_drops_stream_before_flush_witness : (0 : ℕ) < (1 : ℕ) :=
  stop_drops_stream_before_flush
    { stream := true, callback_state := true, state := .Capturing }
    ⟨0, by decide⟩ ⟨1, by decide⟩ (by decide) (by decide)

/-! ## Theorems: silence detector -/

/-- C8: in a session in which no speech has ever been detected and the VAD
finds none in the current frame, `process_samples` returns
`Stop(NoSpeechTimeout)` exactly when the elapsed time since recording start
is at least `no_speech_timeout_ms`, and `Continue` on every call made
before that. -/
theorem no_speech_timeout_exact {V : Type} (predict : V → List ℚ → V × ℚ)
    (s : SilenceDetector V) (now : ℕ) (samples : List ℚ)
    (hns : s.has_detected_speech = false)
    (hsilent : (s.check_vad predict samples).2 = false) :
    (((s.process_samples predict now samples).2 = .Stop .NoSpeechTimeout) ↔
      s.config.no_speech_timeout_ms * 1000000 ≤ now - s.recording_start) ∧
    (now - s.recording_start < s.config.no_speech_timeout_ms * 1000000 →
      (s.process_samples predict now samples).2 = .Continue) := by
  have key : (s.process_samples predict now samples).2 =
      if s.config.no_speech_timeout_ms ≤
          Duration.as_millis (now - s.recording_start) then
        SilenceDetectionResult.Stop .NoSpeechTimeout
      else .Continue := by
    simp [SilenceDetector.process_samples, hsilent, hns, apply_ite]
  have hiff : s.config.no_speech_timeout_ms ≤
      Duration.as_millis (now - s.recording_start) ↔
      s.config.no_speech_timeout_ms * 1000000 ≤ now - s.recording_start := by
    rw [Duration.as_millis]
    exact Nat.le_div_iff_mul_le (by norm_num)
  rw [key]
  by_cases hc : s.config.no_speech_timeout_ms ≤
      Duration.as_millis (now - s.recording_start)
  · rw [if_pos hc]
    refine ⟨iff_of_true rfl (hiff.mp hc), fun h => ?_⟩
    exact absurd (hiff.mp hc) (Nat.not_le.mpr h)
  · rw [if_neg hc]
    refine ⟨iff_of_false (fun h => SilenceDetectionResult.noConfusion h)
      (fun hA => hc (hiff.mpr hA)), fun _ => rfl⟩

/-- Witness for C8: a never-spoke session with a 50 ms timeout, probed with
silence 60 ms after start, stops with `NoSpeechTimeout`. -/
theorem no_speech_timeout_exact_witness :
    (timeoutDetector.process_samples silentPredict 60000000 []).2 =
      .Stop .NoSpeechTimeout :=
  (no_speech_timeout_exact silentPredict timeoutDetector 60000000 []
      rfl rfl).1.mpr (by norm_num [timeoutDetector, SilenceConfig.default])

/-- C9: in a session that has detected speech, on a silent frame
`process_samples` returns `Stop(SilenceAfterSpeech)` exactly when the
current unbroken silence span — measured from the most recent transition
into silence, starting now if speech was detected on the previous frame —
reaches `silence_duration_ms`; any frame in which the VAD detects speech
clears the silence-span tracker (and marks speech as detected), so earlier
silence does not accumulate toward the threshold. -/
theorem silence_after_speech_exact {V : Type}
    (predict : V → List ℚ → V × ℚ) (s : SilenceDetector V) (now : ℕ)
    (samples : List ℚ)
    (hspoke : s.has_detected_speech = true) :
    ((s.check_vad predict samples).2 = false →
      ((((s.process_samples predict now samples).2 =
          .Stop .SilenceAfterSpeech) ↔
        s.config.silence_duration_ms * 1000000 ≤
          now - s.silence_start.getD now) ∧
       (s.process_samples predict now samples).1.silence_start =
         some (s.silence_start.getD now))) ∧
    ((s.check_vad predict samples).2 = true →
      ((s.process_samples predict now samples).1.silence_start = none ∧
       (s.process_samples predict now samples).2 = .Continue ∧
       (s.process_samples predict now samples).1.has_detected_speech =
         true)) := by
  constructor
  · intro hsilent
    have key2 : (s.process_samples predict now samples).2 =
        if s.config.silence_duration_ms ≤
            Duration.as_millis (now - s.silence_start.getD now) then
          SilenceDetectionResult.Stop .SilenceAfterSpeech
        else .Continue := by
      simp [SilenceDetector.process_samples, hsilent, hspoke, apply_ite]
    have key1 : (s.process_samples predict now samples).1.silence_start =
        some (s.silence_start.getD now) := by
      simp [SilenceDetector.process_samples, hsilent, hspoke, apply_ite]
    have hiff : s.config.silence_duration_ms ≤
        Duration.as_millis (now - s.silence_start.getD now) ↔
        s.config.silence_duration_ms * 1000000 ≤
          now - s.silence_start.getD now := by
      rw [Duration.as_millis]
      exact Nat.le_div_iff_mul_le (by norm_num)
    refine ⟨?_, key1⟩
    rw [key2]
    by_cases hc : s.config.silence_duration_ms ≤
        Duration.as_millis (now - s.silence_start.getD now)
    · rw [if_pos hc]
      exact iff_of_true rfl (hiff.mp hc)
    · rw [if_neg hc]
      exact iff_of_false (fun h => SilenceDetectionResult.noConfusion h)
        (fun hA => hc (hiff.mpr hA))
  · intro hspeech
    refine ⟨?_, ?_, ?_⟩ <;>
      simp [SilenceDetector.process_samples, hspeech]

/-- Witness for C9: a has-spoken session with a 0 ms silence threshold
stops with `SilenceAfterSpeech` on a silent frame (the silence span starts
at this very frame and already meets the threshold). -/
theorem silence_after_speech_exact_witness :
    (spokeDetector.process_samples silentPredict 5 []).2 =
      .Stop .SilenceAfterSpeech :=
  (((silence_after_speech_exact silentPredict spokeDetector 5 [] rfl).1
      rfl).1).mpr (by norm_num [spokeDetector])

/-! ## Lemmas about the capture callback -/

theorem signal_once_of_signaled {R : Type} (s : CallbackState R)
    (rsn : StopReason) (h : s.signaled = true) : signal_once s rsn = s := by
  unfold signal_once
  rw [if_pos h]

theorem signal_once_of_not_signaled {R : Type} (s : CallbackState R)
    (rsn : StopReason) (h : s.signaled = false) :
    signal_once s rsn =
      { s with signaled := true, sent := s.sent ++ [rsn] } := by
  unfold signal_once
  rw [if_neg (by rw [h]; exact Bool.false_ne_true)]

theorem signal_once_buffer {R : Type} (s : CallbackState R)
    (rsn : StopReason) : (signal_once s rsn).buffer = s.buffer := by
  unfold signal_once
  split <;> rfl

theorem push_phase_buffer_le {R : Type} (cfg : CallbackCfg R)
    (s : CallbackState R) (xs : List ℚ)
    (h : s.buffer.length ≤ cfg.max_buffer_samples) :
    (push_phase cfg s xs).buffer.length ≤ cfg.max_buffer_samples := by
  unfold push_phase
  split
  · rw [signal_once_buffer]
    exact h
  · dsimp only
    split
    · rw [signal_once_buffer]
      simp only [AudioBuffer.push_samples, List.length_append,
        List.length_take]
      omega
    · simp only [AudioBuffer.push_samples, List.length_append,
        List.length_take]
      omega

theorem push_phase_cases {R : Type} (cfg : CallbackCfg R)
    (s : CallbackState R) (xs : List ℚ) :
    ((push_phase cfg s xs).sent = s.sent ∧
      (push_phase cfg s xs).signaled = s.signaled ∧
      (push_phase cfg s xs).resampler = s.resampler ∧
      (push_phase cfg s xs).resample_buffer = s.resample_buffer) ∨
    (s.signaled = false ∧ (push_phase cfg s xs).signaled = true ∧
      (push_phase cfg s xs).sent = s.sent ++ [StopReason.BufferFull]) := by
  obtain ⟨res, rbuf, buf, sig, sent, ic, oc⟩ := s
  unfold push_phase
  split
  · cases sig
    · right
      simp [signal_once]
    · left
      simp [signal_once]
  · dsimp only
    split
    · cases sig
      · right
        simp [signal_once]
      · left
        simp [signal_once]
    · left
      exact ⟨rfl, rfl, rfl, rfl⟩

theorem process_samples_cases {R : Type} (cfg : CallbackCfg R)
    (s : CallbackState R) (x : List ℚ) :
    ((CallbackState.process_samples cfg s x).sent = s.sent ∧
      (CallbackState.process_samples cfg s x).signaled = s.signaled) ∨
    (s.signaled = false ∧
      (CallbackState.process_samples cfg s x).signaled = true ∧
      ∃ rsn, (CallbackState.process_samples cfg s x).sent
        = s.sent ++ [rsn]) := by
  obtain ⟨res, rbuf, buf, sig, sent, ic, oc⟩ := s
  cases res with
  | none =>
    rcases push_phase_cases cfg
        { resampler := none, resample_buffer := rbuf, buffer := buf,
          signaled := sig, sent := sent,
          input_sample_count := ic + x.length, output_sample_count := oc } x
      with ⟨h1, h2, _, _⟩ | ⟨h0, h2, h1⟩
    · exact Or.inl ⟨h1, h2⟩
    · exact Or.inr ⟨h0, h2, _, h1⟩
  | some r =>
    simp only [CallbackState.process_samples]
    by_cases hover : cfg.max_resample_buffer_samples < rbuf.length + x.length
    · rw [if_pos hover]
      cases sig
      · right
        simp [signal_once]
      · left
        simp [signal_once]
    · rw [if_neg hover]
      rcases push_phase_cases cfg
          { resampler :=
              some (drain_chunks cfg.process cfg.chunk_size r (rbuf ++ x)).1,
            resample_buffer :=
              (drain_chunks cfg.process cfg.chunk_size r (rbuf ++ x)).2.1,
            buffer := buf, signaled := sig, sent := sent,
            input_sample_count := ic + x.length, output_sample_count := oc }
          (drain_chunks cfg.process cfg.chunk_size r (rbuf ++ x)).2.2
        with ⟨h1, h2, _, _⟩ | ⟨h0, h2, h1⟩
      · exact Or.inl ⟨h1, h2⟩
      · exact Or.inr ⟨h0, h2, _, h1⟩

theorem process_samples_buffer_le {R : Type} (cfg : CallbackCfg R)
    (s : CallbackState R) (x : List ℚ)
    (h : s.buffer.length ≤ cfg.max_buffer_samples) :
    (CallbackState.process_samples cfg s x).buffer.length
      ≤ cfg.max_buffer_samples := by
  obtain ⟨res, rbuf, buf, sig, sent, ic, oc⟩ := s
  cases res with
  | none =>
    exact push_phase_buffer_le cfg
      { resampler := none, resample_buffer := rbuf, buffer := buf,
        signaled := sig, sent := sent,
        input_sample_count := ic + x.length, output_sample_count := oc } x h
  | some r =>
    simp only [CallbackState.process_samples]
    by_cases hover : cfg.max_resample_buffer_samples < rbuf.length + x.length
    · rw [if_pos hover, signal_once_buffer]
      exact h
    · rw [if_neg hover]
      exact push_phase_buffer_le cfg _ _ h

theorem process_samples_full_sends {R : Type} (cfg : CallbackCfg R)
    (s : CallbackState R) (x : List ℚ)
    (hsig : s.signaled = false)
    (hfull : AudioBuffer.is_full cfg.max_buffer_samples s.buffer = true)
    (hreach : s.resampler = none ∨
      s.resample_buffer.length + x.length
        ≤ cfg.max_resample_buffer_samples) :
    (CallbackState.process_samples cfg s x).sent
        = s.sent ++ [StopReason.BufferFull] ∧
      (CallbackState.process_samples cfg s x).signaled = true := by
  obtain ⟨res, rbuf, buf, sig, sent, ic, oc⟩ := s
  have hsig' : sig = false := hsig
  have hfull' : AudioBuffer.is_full cfg.max_buffer_samples buf = true := hfull
  cases res with
  | none =>
    simp only [CallbackState.process_samples]
    unfold push_phase
    rw [if_pos hfull']
    subst hsig'
    simp [signal_once]
  | some r =>
    rcases hreach with hnone | hroom
    · exact Option.noConfusion hnone
    · have hroom' : rbuf.length + x.length
          ≤ cfg.max_resample_buffer_samples := hroom
      simp only [CallbackState.process_samples]
      rw [if_neg (by omega)]
      unfold push_phase
      rw [if_pos hfull']
      subst hsig'
      simp [signal_once]

theorem run_callbacks_buffer_le {R : Type} (cfg : CallbackCfg R)
    (s : CallbackState R) (l : List (List ℚ))
    (h : s.buffer.length ≤ cfg.max_buffer_samples) :
    (run_callbacks cfg s l).buffer.length ≤ cfg.max_buffer_samples := by
  induction l generalizing s with
  | nil => exact h
  | cons x xs ih =>
    exact ih _ (process_samples_buffer_le cfg s x h)

theorem run_callbacks_of_signaled {R : Type} (cfg : CallbackCfg R)
    (s : CallbackState R) (l : List (List ℚ)) (h : s.signaled = true) :
    (run_callbacks cfg s l).sent = s.sent ∧
      (run_callbacks cfg s l).signaled = true := by
  induction l generalizing s with
  | nil => exact ⟨rfl, h⟩
  | cons x xs ih =>
    rcases process_samples_cases cfg s x with ⟨h1, h2⟩ | ⟨h0, _, _⟩
    · have step := ih (CallbackState.process_samples cfg s x) (h2.trans h)
      exact ⟨step.1.trans h1, step.2⟩
    · rw [h] at h0
      exact Bool.noConfusion h0

theorem run_callbacks_inv {R : Type} (cfg : CallbackCfg R)
    (s : CallbackState R) (l : List (List ℚ))
    (h1 : s.signaled = false → s.sent = []) (h2 : s.sent.length ≤ 1) :
    ((run_callbacks cfg s l).signaled = false →
      (run_callbacks cfg s l).sent = []) ∧
    (run_callbacks cfg s l).sent.length ≤ 1 := by
  induction l generalizing s with
  | nil => exact ⟨h1, h2⟩
  | cons x xs ih =>
    rcases process_samples_cases cfg s x with ⟨e1, e2⟩ | ⟨e0, e2, rsn, e1⟩
    · exact ih _ (fun hf => e1.trans (h1 (e2.symm.trans hf)))
        (e1 ▸ h2)
    · refine ih _ (fun hf => absurd (e2.symm.trans hf) (fun hb => Bool.noConfusion hb)) ?_
      rw [e1, h1 e0]
      simp

/-- The foldl decomposition of a run at position `n`. -/
theorem run_callbacks_split {R : Type} (cfg : CallbackCfg R)
    (s : CallbackState R) (l : List (List ℚ)) (n : ℕ) (hn : n < l.length) :
    run_callbacks cfg s l =
      run_callbacks cfg
        (CallbackState.process_samples cfg
          (run_callbacks cfg s (l.take n)) (l.get ⟨n, hn⟩))
        (l.drop (n + 1)) := by
  conv_lhs => rw [← List.take_append_drop n l]
  rw [run_callbacks, List.foldl_append, List.drop_eq_get_cons hn]
  rfl

/-! ## Theorems: capture callback buffer bound and stop signal -/

/-- C1 (amended): over every capture session and every sequence of
`process_samples` calls, the destination buffer never exceeds its fixed
maximum and at most one stop reason is ever sent; and once the buffer is
full, provided no stop reason has already been signaled for the session,
the first call that observes the full buffer (i.e. reaches the full check:
no resampler, or its input fits under the accumulation ceiling) makes the
session's channel history exactly one `BufferFull`, no matter how many
further calls observe the full buffer. -/
theorem callback_buffer_bounded_and_bufferfull_once {R : Type}
    (cfg : CallbackCfg R) (res0 : Option R) (inputs : List (List ℚ)) :
    (∀ n, (run_callbacks cfg (CallbackState.init res0)
        (inputs.take n)).buffer.length ≤ cfg.max_buffer_samples) ∧
    (run_callbacks cfg (CallbackState.init res0) inputs).sent.length ≤ 1 ∧
    (∀ n (hn : n < inputs.length),
      (run_callbacks cfg (CallbackState.init res0)
          (inputs.take n)).signaled = false →
      AudioBuffer.is_full cfg.max_buffer_samples
        (run_callbacks cfg (CallbackState.init res0)
          (inputs.take n)).buffer = true →
      ((run_callbacks cfg (CallbackState.init res0)
          (inputs.take n)).resampler = none ∨
        (run_callbacks cfg (CallbackState.init res0)
            (inputs.take n)).resample_buffer.length
          + (inputs.get ⟨n, hn⟩).length
          ≤ cfg.max_resample_buffer_samples) →
      (run_callbacks cfg (CallbackState.init res0) inputs).sent
        = [StopReason.BufferFull]) := by
  refine ⟨?_, ?_, ?_⟩
  · intro n
    exact run_callbacks_buffer_le cfg _ _ (by simp [CallbackState.init])
  · exact (run_callbacks_inv cfg _ inputs (fun _ => rfl)
      (by simp [CallbackState.init])).2
  · intro n hn hsig hfull hreach
    have hsent0 : (run_callbacks cfg (CallbackState.init res0)
        (inputs.take n)).sent = [] :=
      (run_callbacks_inv cfg _ (inputs.take n) (fun _ => rfl)
        (by simp [CallbackState.init])).1 hsig
    have hstep := process_samples_full_sends cfg _ (inputs.get ⟨n, hn⟩)
      hsig hfull hreach
    rw [run_callbacks_split cfg _ inputs n hn]
    have hrest := run_callbacks_of_signaled cfg _ (inputs.drop (n + 1))
      hstep.2
    rw [hrest.1, hstep.1, hsent0]
    rfl

/-- Witness for C1: with no resampler and capacity 1, the first call fills
the buffer exactly; the second call observes it full, and the session's
whole channel history is exactly one `BufferFull`. -/
theorem callback_buffer_bounded_and_bufferfull_once_witness :
    (run_callbacks passthroughCfg (CallbackState.init none)
        [[0], [0]]).sent = [StopReason.BufferFull] :=
  (callback_buffer_bounded_and_bufferfull_once passthroughCfg none
      [[0], [0]]).2.2 1 (by decide) (by decide) (by decide)
    (Or.inl (by decide))

/-- Counterexample for C1 as stated: in a session whose first call
overflows the accumulation ceiling (sending `ResampleOverflow`), the
destination buffer later fills and a further call observes it full (its
input fits under the ceiling), yet no `BufferFull` is ever sent — the
idempotency flag is shared by all stop reasons, so the claim's
"a BufferFull stop reason is sent exactly once" fails. -/
theorem callback_bufferfull_suppressed_counterexample :
    AudioBuffer.is_full echoCfg.max_buffer_samples
      (run_callbacks echoCfg (CallbackState.init (some ()))
        [[0, 0, 0], [0], [0]]).buffer = true ∧
    AudioBuffer.is_full echoCfg.max_buffer_samples
      (run_callbacks echoCfg (CallbackState.init (some ()))
        [[0, 0, 0], [0]]).buffer = true ∧
    (run_callbacks echoCfg (CallbackState.init (some ()))
        [[0, 0, 0], [0]]).resample_buffer.length + 1
      ≤ echoCfg.max_resample_buffer_samples ∧
    (run_callbacks echoCfg (CallbackState.init (some ()))
        [[0, 0, 0], [0], [0]]).sent = [StopReason.ResampleOverflow] := by
  decide

/-! ## Theorems: residual flush -/

/-- The natural-number form of the flush's expected-output formula is the
exact ceiling of `a / b`. -/
theorem ceil_formula_eq (a b : ℕ) (hb : 0 < b) :
    (a + b - 1) / b = ⌈(a : ℚ) / (b : ℚ)⌉₊ := by
  have h1 : ∀ m : ℕ, ⌈(a : ℚ) / (b : ℚ)⌉₊ ≤ m ↔ a ≤ m * b := by
    intro m
    rw [Nat.ceil_le, div_le_iff₀ (by exact_mod_cast hb)]
    exact_mod_cast Iff.rfl
  have h2 : ∀ m : ℕ, (a + b - 1) / b ≤ m ↔ a ≤ m * b := by
    intro m
    rw [← Nat.lt_succ_iff, Nat.div_lt_iff_lt_mul hb, Nat.succ_mul]
    omega
  exact le_antisymm ((h2 _).mpr ((h1 _).mp le_rfl))
    ((h1 _).mpr ((h2 _).mp le_rfl))

/-- C7: with a non-empty residual smaller than one chunk, `flush_residuals`
zero-pads the residual to `chunk_size`, runs one resampler `process` call,
and appends to the destination buffer exactly
`min(output_len, ceil(residual_len * target_rate / source_rate))` samples
(provided the destination has room for them), truncating the zero-padding
artifact; the accumulation buffer is empty afterwards (whatever the
resampler returned), and flushing an empty accumulation buffer is a no-op
producing no output. -/
theorem flush_residuals_truncates {R : Type} (cfg : CallbackCfg R)
    (s : CallbackState R) :
    (∀ r r2 c rest,
      s.resampler = some r →
      0 < s.resample_buffer.length →
      s.resample_buffer.length < cfg.chunk_size →
      cfg.process r (s.resample_buffer ++
          List.replicate (cfg.chunk_size - s.resample_buffer.length) 0)
        = (r2, c :: rest) →
      0 < cfg.device_sample_rate →
      s.buffer.length + min c.length
          ⌈((s.resample_buffer.length * TARGET_SAMPLE_RATE : ℕ) : ℚ)
            / (cfg.device_sample_rate : ℚ)⌉₊ ≤ cfg.max_buffer_samples →
      ((CallbackState.flush_residuals cfg s).buffer =
          s.buffer ++ c.take (min c.length
            ⌈((s.resample_buffer.length * TARGET_SAMPLE_RATE : ℕ) : ℚ)
              / (cfg.device_sample_rate : ℚ)⌉₊) ∧
        (CallbackState.flush_residuals cfg s).buffer.length =
          s.buffer.length + min c.length
            ⌈((s.resample_buffer.length * TARGET_SAMPLE_RATE : ℕ) : ℚ)
              / (cfg.device_sample_rate : ℚ)⌉₊ ∧
        (CallbackState.flush_residuals cfg s).resample_buffer = [])) ∧
    (∀ r,
      s.resampler = some r →
      0 < s.resample_buffer.length →
      s.resample_buffer.length < cfg.chunk_size →
      (CallbackState.flush_residuals cfg s).resample_buffer = []) ∧
    (s.resample_buffer = [] →
      CallbackState.flush_residuals cfg s = s) := by
  obtain ⟨res, rbuf, buf, sig, sent, ic, oc⟩ := s
  refine ⟨?_, ?_, ?_⟩
  · intro r r2 c rest hres h0 hlt hproc hdev hroom
    cases res with
    | none => exact Option.noConfusion hres
    | some r' =>
      dsimp only at hres h0 hlt hproc hroom ⊢
      cases Option.some.inj hres
      have hguard : ¬ (rbuf.length = 0 ∨ cfg.chunk_size ≤ rbuf.length) := by
        omega
      have hexp : (rbuf.length * TARGET_SAMPLE_RATE
            + cfg.device_sample_rate - 1) / cfg.device_sample_rate =
          ⌈((rbuf.length * TARGET_SAMPLE_RATE : ℕ) : ℚ)
            / (cfg.device_sample_rate : ℚ)⌉₊ :=
        ceil_formula_eq _ _ hdev
      simp only [CallbackState.flush_residuals]
      rw [if_neg hguard, hproc]
      dsimp only
      rw [hexp]
      refine ⟨?_, ?_, rfl⟩
      · simp only [AudioBuffer.push_samples]
        congr 1
        refine List.take_of_length_le ?_
        simp only [List.length_take]
        omega
      · simp only [AudioBuffer.push_samples, List.length_append,
          List.length_take]
        omega
  · intro r hres h0 hlt
    cases res with
    | none => exact Option.noConfusion hres
    | some r' =>
      dsimp only at hres h0 hlt
      cases Option.some.inj hres
      have hguard : ¬ (rbuf.length = 0 ∨ cfg.chunk_size ≤ rbuf.length) := by
        omega
      simp only [CallbackState.flush_residuals]
      rw [if_neg hguard]
  · intro hempty
    cases res with
    | none => rfl
    | some r' =>
      simp only at hempty
      subst hempty
      simp [CallbackState.flush_residuals]

/-- Witness for C7: a one-sample residual with chunk size 3 at 48 kHz is
padded to 3 samples, echoed by the resampler, truncated to
`ceil(1·16000/48000) = 1` sample, and the accumulation buffer ends
empty. -/
theorem flush_residuals_truncates_witness :
    (CallbackState.flush_residuals flushCfg flushState).buffer = [1] ∧
    (CallbackState.flush_residuals flushCfg flushState).resample_buffer
      = [] := by
  have h := (flush_residuals_truncates flushCfg flushState).1 () ()
    [1, 0, 0] [] rfl (by decide) (by decide) rfl (by decide)
    (by norm_num [flushCfg, flushState, TARGET_SAMPLE_RATE])
  refine ⟨?_, h.2.2⟩
  rw [h.1]
  have hceil : ⌈(1 / 3 : ℚ)⌉₊ = 1 := by
    rw [Nat.ceil_eq_iff (by norm_num)]
    norm_num
  norm_num [flushCfg, flushState, TARGET_SAMPLE_RATE, hceil]

end Heycat
